import Mathlib

/-!
# Verification of the MAP_WIDGET aggregation and view-state engine

Shallow embedding of the survey-map widget's core logic:

* the metric value model (`safeMetricValue`, `formatMetricValue`, `getColor`,
  from `map.component.ts`),
* the country-name normalizer (`geoNameForCountry`, from `geo.service.ts`),
* the aggregation engine (`aggregateByCountry`, `aggregateByState`),
* the drill-down view state machine (`onCountrySelect`, `onStateSelect`,
  `setDrillLevel`, `goToWorld`, `goBackFromState`, `goBackFromCity`) and its
  derived render set (`currentMapData`).

Modelling conventions:
* JavaScript numbers are modelled as rationals (`ℚ`).  A metric field that can
  be `NaN` or `undefined` is modelled as `Option ℚ`, with `none` standing for
  the non-numeric case (the source treats `undefined` and `NaN` identically in
  every guard that matters here).
* Response counts are modelled as naturals (the data model declares them
  non-negative integers).
* A JavaScript division whose divisor is the total group weight is modelled by
  `jsDiv`, which returns `none` when the divisor is `0`: with all weights `0`
  the weighted numerator is also `0`, and `0 / 0` is `NaN` in JavaScript.
* A JavaScript `Map` with string keys is modelled as an insertion-ordered
  association list; `Map.set` on a fresh key appends, and in-place mutation of
  an existing entry keeps its position.
-/

/-- Drill level for hierarchical view (`'country' | 'state' | 'city'`). -/
inductive DrillLevel where
  | country
  | state
  | city
deriving DecidableEq, Repr

/-- City-level survey record (`SurveyCity` in `survey-city.ts`).
`nps : Option ℚ` models a possibly-`NaN` number; `csat`/`ces` model optional,
possibly-`NaN` numbers (`none` = absent or `NaN`); `surveyDate` is optional. -/
structure SurveyCity where
  city : String
  state : String
  country : String
  latitude : ℚ
  longitude : ℚ
  nps : Option ℚ
  csat : Option ℚ
  ces : Option ℚ
  responseCount : ℕ
  surveyDate : Option String
deriving DecidableEq, Repr

/-- Aggregated data at country or state level (`SurveyAggregate`).
Metric and coordinate fields are `Option ℚ` because the source computes them by
division by the group weight, which is `NaN` when the weight is `0`. -/
structure SurveyAggregate where
  name : String
  country : Option String
  state : Option String
  latitude : Option ℚ
  longitude : Option ℚ
  nps : Option ℚ
  csat : Option ℚ
  ces : Option ℚ
  responseCount : ℕ
  surveyDate : Option String
  level : DrillLevel
deriving DecidableEq, Repr

/-! ## Metric value model (`map.component.ts`, part_001) -/

/-- `safeMetricValue(value)`: `Number(value)` is `NaN` exactly when the input is
`undefined` or `NaN` (modelled `none`), and both yield `0`. -/
def safeMetricValue (value : Option ℚ) : ℚ :=
  value.getD 0

/-- `Math.round`: round to nearest integer, ties toward positive infinity. -/
def jsRound (x : ℚ) : ℤ :=
  ⌊x + 1 / 2⌋

/-- `Number.prototype.toFixed(1)`: nearest multiple of `1/10`, ties picking the
larger candidate, rendered with one digit after the decimal point. -/
def toFixed1 (x : ℚ) : String :=
  (if ⌊x * 10 + 1 / 2⌋ < 0 then "-" else "")
    ++ toString ((⌊x * 10 + 1 / 2⌋).natAbs / 10)
    ++ "."
    ++ toString ((⌊x * 10 + 1 / 2⌋).natAbs % 10)

/-- `formatMetricValue(value, metric)`: `"—"` when the value is missing or
`NaN`; one-decimal fixed point for `ces`; rounded integer string otherwise. -/
def formatMetricValue (value : Option ℚ) (metric : String) : String :=
  match value with
  | none => "—"
  | some v => if metric = "ces" then toFixed1 v else toString (jsRound v)

/-- Band colors used by `getColor`. -/
def colorGood : String := "#22c55e"

/-- Neutral band color. -/
def colorNeutral : String := "#eab308"

/-- Bad band color. -/
def colorBad : String := "#ef4444"

/-- Gray returned by `getColor`'s `default` branch. -/
def colorUnknown : String := "#6b7280"

/-- `getColor(metric, value)` from part_001: coerces the value through
`safeMetricValue`, then classifies per metric; unknown metric keys fall to the
`default` branch. The metric key is modelled as a string because the source
switches on a string and has a `default` case. -/
def getColor (metric : String) (value : Option ℚ) : String :=
  let v := safeMetricValue value
  if metric = "nps" then
    if v ≥ 50 then colorGood else if v ≥ 0 then colorNeutral else colorBad
  else if metric = "csat" then
    if v ≥ 80 then colorGood else if v ≥ 60 then colorNeutral else colorBad
  else if metric = "ces" then
    if v < 3 then colorGood else if v ≤ 5 then colorNeutral else colorBad
  else colorUnknown

/-! ## Country-name normalizer (`geo.service.ts`) -/

/-- Association-list lookup, modelling property access on a JS record. -/
def lookupStr (k : String) : List (String × String) → Option String
  | [] => none
  | (k₁, v) :: rest => if k₁ = k then some v else lookupStr k rest

/-- `COUNTRY_NAME_TO_GEO`: survey country names to world-atlas names. -/
def COUNTRY_NAME_TO_GEO : List (String × String) :=
  [("USA", "United States of America"),
   ("UK", "United Kingdom"),
   ("UAE", "United Arab Emirates"),
   ("Czech Republic", "Czechia"),
   ("South Korea", "South Korea"),
   ("Russia", "Russia"),
   ("Vietnam", "Vietnam"),
   ("Taiwan", "Taiwan")]

/-- `geoNameForCountry(surveyCountry)`: table lookup with identity fallback
(`COUNTRY_NAME_TO_GEO[surveyCountry] ?? surveyCountry`). -/
def geoNameForCountry (surveyCountry : String) : String :=
  (lookupStr surveyCountry COUNTRY_NAME_TO_GEO).getD surveyCountry

/-! ## Aggregation engine (`aggregateByCountry` / `aggregateByState`) -/

/-- The per-group accumulator object stored in the JS `Map`:
`{ lat, lng, nps, csat, ces, count, date }`, holding weighted running sums. -/
structure GroupAcc where
  lat : ℚ
  lng : ℚ
  nps : ℚ
  csat : ℚ
  ces : ℚ
  count : ℕ
  date : Option String
deriving DecidableEq, Repr

/-- `Number(c.nps)` with `NaN` coerced to `0` at accumulation time. -/
def coerceNps (c : SurveyCity) : ℚ :=
  c.nps.getD 0

/-- `typeof c.csat === 'number' && !Number.isNaN(c.csat) ? c.csat : 50`. -/
def coerceCsat (c : SurveyCity) : ℚ :=
  c.csat.getD 50

/-- `typeof c.ces === 'number' && !Number.isNaN(c.ces) ? c.ces : 3`. -/
def coerceCes (c : SurveyCity) : ℚ :=
  c.ces.getD 3

/-- JS truthiness of an optional string: `null`/`undefined` and `""` are falsy. -/
def strTruthy : Option String → Bool
  | none => false
  | some s => decide (s ≠ "")

/-- The source's survey-date update:
`if (c.surveyDate && (!existing.date || c.surveyDate > (existing.date ?? '')))`. -/
def updDate (existing : Option String) (d : Option String) : Option String :=
  if strTruthy d ∧ (strTruthy existing = false ∨ existing.getD "" < d.getD "") then d
  else existing

/-- The `byCountry.set(key, {...})` initializer for a fresh group. -/
def initAcc (c : SurveyCity) : GroupAcc :=
  { lat := c.latitude * (c.responseCount : ℚ)
    lng := c.longitude * (c.responseCount : ℚ)
    nps := coerceNps c * (c.responseCount : ℚ)
    csat := coerceCsat c * (c.responseCount : ℚ)
    ces := coerceCes c * (c.responseCount : ℚ)
    count := c.responseCount
    date := c.surveyDate }

/-- The in-place `existing.* += ...` update of an existing group entry. -/
def updAcc (a : GroupAcc) (c : SurveyCity) : GroupAcc :=
  { lat := a.lat + c.latitude * (c.responseCount : ℚ)
    lng := a.lng + c.longitude * (c.responseCount : ℚ)
    nps := a.nps + coerceNps c * (c.responseCount : ℚ)
    csat := a.csat + coerceCsat c * (c.responseCount : ℚ)
    ces := a.ces + coerceCes c * (c.responseCount : ℚ)
    count := a.count + c.responseCount
    date := updDate a.date c.surveyDate }

/-- One loop iteration over the insertion-ordered `Map`: update the entry with
the record's key in place, or append a fresh entry at the end. -/
def insertCity (keyOf : SurveyCity → String) (c : SurveyCity) :
    List (String × GroupAcc) → List (String × GroupAcc)
  | [] => [(keyOf c, initAcc c)]
  | (k, a) :: rest =>
    if k = keyOf c then (k, updAcc a c) :: rest
    else (k, a) :: insertCity keyOf c rest

/-- The whole `for (const c of cities)` grouping loop. -/
def groupCities (keyOf : SurveyCity → String) (cities : List SurveyCity) :
    List (String × GroupAcc) :=
  cities.foldl (fun m c => insertCity keyOf c m) []

/-- JS division by the group weight: `NaN` (`none`) when the weight is `0`
(the weighted numerator is then also `0`, and `0 / 0` is `NaN`). -/
def jsDiv (a : ℚ) (n : ℕ) : Option ℚ :=
  if n = 0 then none else some (a / (n : ℚ))

/-- `aggregateByCountry(cities)`: group by exact country string, then divide
each accumulated sum by the group's total response count. -/
def aggregateByCountry (cities : List SurveyCity) : List SurveyAggregate :=
  (groupCities (fun c => c.country) cities).map fun p =>
    { name := p.1
      country := none
      state := none
      latitude := jsDiv p.2.lat p.2.count
      longitude := jsDiv p.2.lng p.2.count
      nps := jsDiv p.2.nps p.2.count
      csat := jsDiv p.2.csat p.2.count
      ces := jsDiv p.2.ces p.2.count
      responseCount := p.2.count
      surveyDate := p.2.date
      level := DrillLevel.country }

/-- The state grouping key `c.state || c.country` (empty state is falsy). -/
def stateKey (c : SurveyCity) : String :=
  if c.state = "" then c.country else c.state

/-- `aggregateByState(cities, country)`: filter to the country, group by
`c.state || c.country`, then divide by each group's total response count. -/
def aggregateByState (cities : List SurveyCity) (country : String) :
    List SurveyAggregate :=
  (groupCities stateKey (cities.filter (fun c => c.country = country))).map fun p =>
    { name := p.1
      country := some country
      state := some p.1
      latitude := jsDiv p.2.lat p.2.count
      longitude := jsDiv p.2.lng p.2.count
      nps := jsDiv p.2.nps p.2.count
      csat := jsDiv p.2.csat p.2.count
      ces := jsDiv p.2.ces p.2.count
      responseCount := p.2.count
      surveyDate := p.2.date
      level := DrillLevel.state }

/-! ## Drill-down view state machine -/

/-- The component's view-state signals relevant to navigation and rendering. -/
structure ViewState where
  selectedMetric : String
  displayType : String
  drillLevel : DrillLevel
  selectedCountry : Option String
  selectedState : Option String
  baseLayerKey : String
deriving DecidableEq, Repr

/-- Initial signal values: `'nps'`, `'circle'`, `'country'`, `null`, `null`,
`'standard'`. -/
def initialState : ViewState :=
  { selectedMetric := "nps"
    displayType := "circle"
    drillLevel := DrillLevel.country
    selectedCountry := none
    selectedState := none
    baseLayerKey := "standard" }

/-- `setDrillLevel(level, country, state)`. -/
def setDrillLevel (level : DrillLevel) (country state : Option String)
    (s : ViewState) : ViewState :=
  { s with drillLevel := level, selectedCountry := country, selectedState := state }

/-- `onCountrySelect(country)`: select the country, clear the state, drill to
`'state'`. -/
def onCountrySelect (country : String) (s : ViewState) : ViewState :=
  { s with selectedCountry := some country
           selectedState := none
           drillLevel := DrillLevel.state }

/-- `onStateSelect(state)`: select the state and drill to `'city'`
(unconditionally — the source performs no country check). -/
def onStateSelect (state : String) (s : ViewState) : ViewState :=
  { s with selectedState := some state, drillLevel := DrillLevel.city }

/-- `goToWorld()`. -/
def goToWorld (s : ViewState) : ViewState :=
  setDrillLevel DrillLevel.country none none s

/-- `goBackFromState()`. -/
def goBackFromState (s : ViewState) : ViewState :=
  setDrillLevel DrillLevel.country none none s

/-- `goBackFromCity()`: back to `'state'`, keeping the selected country. -/
def goBackFromCity (s : ViewState) : ViewState :=
  setDrillLevel DrillLevel.state s.selectedCountry none s

/-- Result type of `currentMapData`: aggregates, raw city records, or the bare
`[]` of the final fall-through branch. -/
inductive MapData where
  | aggregates : List SurveyAggregate → MapData
  | cityList : List SurveyCity → MapData
  | empty : MapData
deriving DecidableEq, Repr

/-- The `currentMapData` computed signal, as a function of the raw data and the
three navigation signals it reads. -/
def currentMapData (data : List SurveyCity) (level : DrillLevel)
    (country state : Option String) : MapData :=
  if level = DrillLevel.country then MapData.aggregates (aggregateByCountry data)
  else if level = DrillLevel.state ∧ strTruthy country then
    MapData.aggregates (aggregateByState data (country.getD ""))
  else if level = DrillLevel.city then
    if strTruthy country = false then MapData.cityList data
    else
      let list := data.filter (fun c => c.country = country.getD "")
      if state ≠ none ∧ state ≠ some "" then
        MapData.cityList (list.filter (fun c => stateKey c = state.getD ""))
      else MapData.cityList list
  else MapData.empty

/-- `currentMapData` read off a full view state. -/
def currentMapDataOf (data : List SurveyCity) (s : ViewState) : MapData :=
  currentMapData data s.drillLevel s.selectedCountry s.selectedState

/-! ## Spec-side quantities: groups, weights, weighted sums -/

/-- Association-list lookup into the grouping map. -/
def lookupA (k : String) : List (String × GroupAcc) → Option GroupAcc
  | [] => none
  | (k₁, a) :: rest => if k₁ = k then some a else lookupA k rest

/-- The keys of the grouping map. -/
def keysA (m : List (String × GroupAcc)) : List String :=
  m.map Prod.fst

/-- Response-count-weighted sum of a per-record quantity. -/
def weightedSum (f : SurveyCity → ℚ) (l : List SurveyCity) : ℚ :=
  (l.map (fun c => f c * (c.responseCount : ℚ))).sum

/-- Total response count of a list of records. -/
def totalWeight (l : List SurveyCity) : ℕ :=
  (l.map (fun c => c.responseCount)).sum

/-- The constituents of the country group named `k`. -/
def groupOfCountry (cities : List SurveyCity) (k : String) : List SurveyCity :=
  cities.filter (fun c => c.country = k)

/-- The constituents of the state group named `k` within `country`
(the group key is the state, or the country when the state is empty). -/
def groupOfState (cities : List SurveyCity) (country k : String) :
    List SurveyCity :=
  (cities.filter (fun c => c.country = country)).filter (fun c => stateKey c = k)

/-! ## Concrete sample records for closed-form checks -/

/-- `{country:"USA", state:"CA", responseCount:10, nps:80}` of the spec's
scenario, with concrete coordinates. -/
def cityLA : SurveyCity :=
  { city := "LA", state := "CA", country := "USA", latitude := 34,
    longitude := -118, nps := some 80, csat := none, ces := none,
    responseCount := 10, surveyDate := none }

/-- `{country:"USA", state:"CA", responseCount:10, nps:40}` of the spec's
scenario. -/
def citySF : SurveyCity :=
  { city := "SF", state := "CA", country := "USA", latitude := 37,
    longitude := -122, nps := some 40, csat := none, ces := none,
    responseCount := 10, surveyDate := none }

/-- A record with response count `0`, exercising the zero-weight group. -/
def cityZero : SurveyCity :=
  { city := "X", state := "", country := "Nowhere", latitude := 1,
    longitude := 2, nps := some 10, csat := none, ces := none,
    responseCount := 0, surveyDate := none }

/-! ## Grouping-map lemmas -/

lemma lookupA_insertCity (keyOf : SurveyCity → String) (c : SurveyCity)
    (m : List (String × GroupAcc)) (k : String) :
    lookupA k (insertCity keyOf c m) =
      if keyOf c = k then
        match lookupA k m with
        | some a => some (updAcc a c)
        | none => some (initAcc c)
      else lookupA k m := by
  induction m with
  | nil =>
    by_cases h : keyOf c = k <;> simp [insertCity, lookupA, h]
  | cons p rest ih =>
    obtain ⟨k₁, a⟩ := p
    by_cases h₁ : k₁ = keyOf c
    · by_cases h₂ : keyOf c = k
      · simp [insertCity, lookupA, h₁, h₂]
      · have h₃ : ¬ k₁ = k := by rw [h₁]; exact h₂
        simp [insertCity, lookupA, h₁, h₂, h₃]
    · have h₁' : ¬ keyOf c = k₁ := fun h => h₁ h.symm
      by_cases h₂ : k₁ = k
      · subst h₂
        simp [insertCity, lookupA, h₁, h₁']
      · simp [insertCity, lookupA, h₁, h₂, ih]

lemma lookupA_foldl_insert (keyOf : SurveyCity → String)
    (l : List SurveyCity) (m : List (String × GroupAcc)) (k : String) :
    lookupA k (l.foldl (fun m c => insertCity keyOf c m) m) =
      match lookupA k m with
      | some a => some ((l.filter (fun c => keyOf c = k)).foldl updAcc a)
      | none =>
        match l.filter (fun c => keyOf c = k) with
        | [] => none
        | c :: cs => some (cs.foldl updAcc (initAcc c))
      := by
  induction l generalizing m with
  | nil =>
    cases h : lookupA k m <;> simp [h]
  | cons c cs ih =>
    rw [List.foldl_cons, ih, lookupA_insertCity]
    by_cases hc : keyOf c = k
    · cases h : lookupA k m <;> simp [h, hc, List.filter_cons]
    · cases h : lookupA k m <;> simp [h, hc, List.filter_cons]

lemma mem_keysA_insertCity (keyOf : SurveyCity → String) (c : SurveyCity)
    (m : List (String × GroupAcc)) (x : String)
    (h : x ∈ keysA (insertCity keyOf c m)) : x ∈ keysA m ∨ x = keyOf c := by
  induction m with
  | nil =>
    have h' : x ∈ [keyOf c] := h
    exact Or.inr (List.mem_singleton.mp h')
  | cons p rest ih =>
    obtain ⟨k₁, a⟩ := p
    by_cases h₁ : k₁ = keyOf c
    · have e : insertCity keyOf c ((k₁, a) :: rest) = (k₁, updAcc a c) :: rest := by
        simp [insertCity, h₁]
      rw [e] at h
      exact Or.inl h
    · have e : insertCity keyOf c ((k₁, a) :: rest)
          = (k₁, a) :: insertCity keyOf c rest := by
        simp [insertCity, h₁]
      rw [e] at h
      have h' : x ∈ k₁ :: keysA (insertCity keyOf c rest) := h
      rcases List.mem_cons.mp h' with h₂ | h₂
      · exact Or.inl (by rw [h₂]; exact List.mem_cons_self _ _)
      · rcases ih h₂ with h₃ | h₃
        · exact Or.inl (List.mem_cons_of_mem _ h₃)
        · exact Or.inr h₃

lemma nodup_keysA_insertCity (keyOf : SurveyCity → String) (c : SurveyCity)
    (m : List (String × GroupAcc)) (h : (keysA m).Nodup) :
    (keysA (insertCity keyOf c m)).Nodup := by
  induction m with
  | nil => exact List.nodup_singleton _
  | cons p rest ih =>
    obtain ⟨k₁, a⟩ := p
    have h' : k₁ ∉ keysA rest ∧ (keysA rest).Nodup := List.nodup_cons.mp h
    by_cases h₁ : k₁ = keyOf c
    · have e : insertCity keyOf c ((k₁, a) :: rest) = (k₁, updAcc a c) :: rest := by
        simp [insertCity, h₁]
      rw [e]
      exact h
    · have e : insertCity keyOf c ((k₁, a) :: rest)
          = (k₁, a) :: insertCity keyOf c rest := by
        simp [insertCity, h₁]
      rw [e]
      refine List.nodup_cons.mpr ⟨?_, ih h'.2⟩
      intro hmem
      rcases mem_keysA_insertCity keyOf c rest k₁ hmem with h₂ | h₂
      · exact h'.1 h₂
      · exact h₁ h₂

lemma nodup_keysA_foldl (keyOf : SurveyCity → String) (l : List SurveyCity)
    (m : List (String × GroupAcc)) (h : (keysA m).Nodup) :
    (keysA (l.foldl (fun m c => insertCity keyOf c m) m)).Nodup := by
  induction l generalizing m with
  | nil => simpa using h
  | cons c cs ih =>
    rw [List.foldl_cons]
    exact ih _ (nodup_keysA_insertCity keyOf c m h)

lemma lookupA_of_mem (m : List (String × GroupAcc)) (k : String) (a : GroupAcc)
    (hmem : (k, a) ∈ m) (hnd : (keysA m).Nodup) : lookupA k m = some a := by
  induction m with
  | nil => exact absurd hmem (List.not_mem_nil _)
  | cons p rest ih =>
    obtain ⟨k₁, a₁⟩ := p
    have hnd' : k₁ ∉ keysA rest ∧ (keysA rest).Nodup := List.nodup_cons.mp hnd
    rcases List.mem_cons.mp hmem with h | h
    · cases h
      simp [lookupA]
    · by_cases h₁ : k₁ = k
      · exfalso
        apply hnd'.1
        subst h₁
        exact List.mem_map_of_mem Prod.fst h
      · show (if k₁ = k then some a₁ else lookupA k rest) = some a
        rw [if_neg h₁]
        exact ih h hnd'.2

lemma mem_of_lookupA (m : List (String × GroupAcc)) (k : String) (a : GroupAcc)
    (h : lookupA k m = some a) : (k, a) ∈ m := by
  induction m with
  | nil => simp [lookupA] at h
  | cons p rest ih =>
    obtain ⟨k₁, a₁⟩ := p
    by_cases h₁ : k₁ = k
    · subst h₁
      have h' : some a₁ = some a := by simpa [lookupA] using h
      rw [← Option.some.injEq a₁ a |>.mp h']
      exact List.mem_cons_self _ _
    · have h' : lookupA k rest = some a := by simpa [lookupA, h₁] using h
      exact List.mem_cons_of_mem _ (ih h')

lemma foldl_updAcc_count (cs : List SurveyCity) (a : GroupAcc) :
    (cs.foldl updAcc a).count = a.count + totalWeight cs := by
  induction cs generalizing a with
  | nil => simp [totalWeight]
  | cons c cs ih =>
    rw [List.foldl_cons, ih]
    simp [updAcc, totalWeight]
    ring

lemma foldl_updAcc_field (g : GroupAcc → ℚ) (f : SurveyCity → ℚ)
    (hstep : ∀ a c, g (updAcc a c) = g a + f c * (c.responseCount : ℚ))
    (cs : List SurveyCity) (a : GroupAcc) :
    g (cs.foldl updAcc a) = g a + weightedSum f cs := by
  induction cs generalizing a with
  | nil => simp [weightedSum]
  | cons c cs ih =>
    rw [List.foldl_cons, ih, hstep]
    simp [weightedSum]
    ring

lemma groupCities_char (keyOf : SurveyCity → String) (l : List SurveyCity)
    (k : String) (a : GroupAcc) (h : (k, a) ∈ groupCities keyOf l) :
    a.count = totalWeight (l.filter (fun c => keyOf c = k)) ∧
    a.lat = weightedSum (fun c => c.latitude) (l.filter (fun c => keyOf c = k)) ∧
    a.lng = weightedSum (fun c => c.longitude) (l.filter (fun c => keyOf c = k)) ∧
    a.nps = weightedSum coerceNps (l.filter (fun c => keyOf c = k)) ∧
    a.csat = weightedSum coerceCsat (l.filter (fun c => keyOf c = k)) ∧
    a.ces = weightedSum coerceCes (l.filter (fun c => keyOf c = k)) := by
  have hnd : (keysA (groupCities keyOf l)).Nodup := by
    have : (keysA ([] : List (String × GroupAcc))).Nodup := List.nodup_nil
    exact nodup_keysA_foldl keyOf l [] this
  have hlook : lookupA k (groupCities keyOf l) = some a := lookupA_of_mem _ _ _ h hnd
  rw [groupCities, lookupA_foldl_insert] at hlook
  have hnone : lookupA k ([] : List (String × GroupAcc)) = none := rfl
  rw [hnone] at hlook
  rcases hfl : l.filter (fun c => keyOf c = k) with _ | ⟨c, cs⟩
  · rw [hfl] at hlook
    simp at hlook
  · rw [hfl] at hlook
    simp only [Option.some.injEq] at hlook
    subst hlook
    refine ⟨?_, ?_, ?_, ?_, ?_, ?_⟩
    · rw [foldl_updAcc_count]
      simp [initAcc, totalWeight]
    · rw [foldl_updAcc_field (fun a => a.lat) (fun c => c.latitude)
        (fun a c => rfl) cs (initAcc c)]
      simp [initAcc, weightedSum]
    · rw [foldl_updAcc_field (fun a => a.lng) (fun c => c.longitude)
        (fun a c => rfl) cs (initAcc c)]
      simp [initAcc, weightedSum]
    · rw [foldl_updAcc_field (fun a => a.nps) coerceNps
        (fun a c => rfl) cs (initAcc c)]
      simp [initAcc, weightedSum]
    · rw [foldl_updAcc_field (fun a => a.csat) coerceCsat
        (fun a c => rfl) cs (initAcc c)]
      simp [initAcc, weightedSum]
    · rw [foldl_updAcc_field (fun a => a.ces) coerceCes
        (fun a c => rfl) cs (initAcc c)]
      simp [initAcc, weightedSum]

lemma groupCities_exists (keyOf : SurveyCity → String) (l : List SurveyCity)
    (k : String) (h : l.filter (fun c => keyOf c = k) ≠ []) :
    ∃ a, (k, a) ∈ groupCities keyOf l := by
  have hfold := lookupA_foldl_insert keyOf l [] k
  have hnone : lookupA k ([] : List (String × GroupAcc)) = none := rfl
  rw [hnone] at hfold
  rcases hfl : l.filter (fun c => keyOf c = k) with _ | ⟨c, cs⟩
  · exact absurd hfl h
  · rw [hfl] at hfold
    simp only at hfold
    exact ⟨_, mem_of_lookupA _ _ _ hfold⟩

/-- A non-empty total response count forces a non-empty constituent list. -/
lemma filter_ne_nil_of_pos_weight (l : List SurveyCity)
    (h : 0 < totalWeight l) : l ≠ [] := by
  intro hnil
  rw [hnil] at h
  simp [totalWeight] at h

/-! ## Claim theorems -/

/-- C1: for every input list and every group (by exact country string in
`aggregateByCountry`, by state-or-country key within the given country in
`aggregateByState`) whose total response count is positive, the returned
aggregate's latitude, longitude, NPS, CSAT and CES each equal the
response-count-weighted mean of the group's constituents, with missing CSAT
defaulting to 50, missing CES to 3, and non-numeric NPS coerced to 0; a group
with positive weight is always returned; and the spec's two-record scenario
yields a single "CA" aggregate with NPS 60 and response count 20. -/
theorem aggregate_weighted_mean :
    (∀ (cities : List SurveyCity) (agg : SurveyAggregate),
        agg ∈ aggregateByCountry cities →
        0 < totalWeight (groupOfCountry cities agg.name) →
        agg.latitude = some (weightedSum (fun c => c.latitude)
              (groupOfCountry cities agg.name)
            / (totalWeight (groupOfCountry cities agg.name) : ℚ)) ∧
        agg.longitude = some (weightedSum (fun c => c.longitude)
              (groupOfCountry cities agg.name)
            / (totalWeight (groupOfCountry cities agg.name) : ℚ)) ∧
        agg.nps = some (weightedSum coerceNps (groupOfCountry cities agg.name)
            / (totalWeight (groupOfCountry cities agg.name) : ℚ)) ∧
        agg.csat = some (weightedSum coerceCsat (groupOfCountry cities agg.name)
            / (totalWeight (groupOfCountry cities agg.name) : ℚ)) ∧
        agg.ces = some (weightedSum coerceCes (groupOfCountry cities agg.name)
            / (totalWeight (groupOfCountry cities agg.name) : ℚ))) ∧
    (∀ (cities : List SurveyCity) (country : String) (agg : SurveyAggregate),
        agg ∈ aggregateByState cities country →
        0 < totalWeight (groupOfState cities country agg.name) →
        agg.latitude = some (weightedSum (fun c => c.latitude)
              (groupOfState cities country agg.name)
            / (totalWeight (groupOfState cities country agg.name) : ℚ)) ∧
        agg.longitude = some (weightedSum (fun c => c.longitude)
              (groupOfState cities country agg.name)
            / (totalWeight (groupOfState cities country agg.name) : ℚ)) ∧
        agg.nps = some (weightedSum coerceNps (groupOfState cities country agg.name)
            / (totalWeight (groupOfState cities country agg.name) : ℚ)) ∧
        agg.csat = some (weightedSum coerceCsat (groupOfState cities country agg.name)
            / (totalWeight (groupOfState cities country agg.name) : ℚ)) ∧
        agg.ces = some (weightedSum coerceCes (groupOfState cities country agg.name)
            / (totalWeight (groupOfState cities country agg.name) : ℚ))) ∧
    (∀ (cities : List SurveyCity) (k : String),
        0 < totalWeight (groupOfCountry cities k) →
        ∃ agg ∈ aggregateByCountry cities, agg.name = k) ∧
    (∀ (cities : List SurveyCity) (country k : String),
        0 < totalWeight (groupOfState cities country k) →
        ∃ agg ∈ aggregateByState cities country, agg.name = k) ∧
    ((aggregateByState [cityLA, citySF] "USA").map
        (fun a => (a.name, a.nps, a.responseCount)) = [("CA", some 60, 20)]) := by
  refine ⟨?_, ?_, ?_, ?_, ?_⟩
  · intro cities agg hmem hw
    rw [aggregateByCountry] at hmem
    obtain ⟨⟨k, a⟩, hp, rfl⟩ := List.mem_map.mp hmem
    have hchar := groupCities_char (fun c => c.country) cities k a hp
    have hcount : a.count = totalWeight (groupOfCountry cities k) := by
      simpa [groupOfCountry] using hchar.1
    have hw' : 0 < totalWeight (groupOfCountry cities k) := hw
    have hpos : a.count ≠ 0 := by
      rw [hcount]
      omega
    refine ⟨?_, ?_, ?_, ?_, ?_⟩
    · show jsDiv a.lat a.count = _
      rw [jsDiv, if_neg hpos, hcount,
        show a.lat = weightedSum (fun c => c.latitude) (groupOfCountry cities k) by
          simpa [groupOfCountry] using hchar.2.1]
    · show jsDiv a.lng a.count = _
      rw [jsDiv, if_neg hpos, hcount,
        show a.lng = weightedSum (fun c => c.longitude) (groupOfCountry cities k) by
          simpa [groupOfCountry] using hchar.2.2.1]
    · show jsDiv a.nps a.count = _
      rw [jsDiv, if_neg hpos, hcount,
        show a.nps = weightedSum coerceNps (groupOfCountry cities k) by
          simpa [groupOfCountry] using hchar.2.2.2.1]
    · show jsDiv a.csat a.count = _
      rw [jsDiv, if_neg hpos, hcount,
        show a.csat = weightedSum coerceCsat (groupOfCountry cities k) by
          simpa [groupOfCountry] using hchar.2.2.2.2.1]
    · show jsDiv a.ces a.count = _
      rw [jsDiv, if_neg hpos, hcount,
        show a.ces = weightedSum coerceCes (groupOfCountry cities k) by
          simpa [groupOfCountry] using hchar.2.2.2.2.2]
  · intro cities country agg hmem hw
    rw [aggregateByState] at hmem
    obtain ⟨⟨k, a⟩, hp, rfl⟩ := List.mem_map.mp hmem
    have hchar := groupCities_char stateKey
      (cities.filter (fun c => c.country = country)) k a hp
    have hcount : a.count = totalWeight (groupOfState cities country k) := by
      simpa [groupOfState] using hchar.1
    have hw' : 0 < totalWeight (groupOfState cities country k) := hw
    have hpos : a.count ≠ 0 := by
      rw [hcount]
      omega
    refine ⟨?_, ?_, ?_, ?_, ?_⟩
    · show jsDiv a.lat a.count = _
      rw [jsDiv, if_neg hpos, hcount,
        show a.lat = weightedSum (fun c => c.latitude)
            (groupOfState cities country k) by
          simpa [groupOfState] using hchar.2.1]
    · show jsDiv a.lng a.count = _
      rw [jsDiv, if_neg hpos, hcount,
        show a.lng = weightedSum (fun c => c.longitude)
            (groupOfState cities country k) by
          simpa [groupOfState] using hchar.2.2.1]
    · show jsDiv a.nps a.count = _
      rw [jsDiv, if_neg hpos, hcount,
        show a.nps = weightedSum coerceNps (groupOfState cities country k) by
          simpa [groupOfState] using hchar.2.2.2.1]
    · show jsDiv a.csat a.count = _
      rw [jsDiv, if_neg hpos, hcount,
        show a.csat = weightedSum coerceCsat (groupOfState cities country k) by
          simpa [groupOfState] using hchar.2.2.2.2.1]
    · show jsDiv a.ces a.count = _
      rw [jsDiv, if_neg hpos, hcount,
        show a.ces = weightedSum coerceCes (groupOfState cities country k) by
          simpa [groupOfState] using hchar.2.2.2.2.2]
  · intro cities k hw
    obtain ⟨a, ha⟩ := groupCities_exists (fun c => c.country) cities k
      (by simpa [groupOfCountry] using filter_ne_nil_of_pos_weight _ hw)
    refine ⟨_, List.mem_map_of_mem _ ha, rfl⟩
  · intro cities country k hw
    obtain ⟨a, ha⟩ := groupCities_exists stateKey
      (cities.filter (fun c => c.country = country)) k
      (by simpa [groupOfState] using filter_ne_nil_of_pos_weight _ hw)
    refine ⟨_, List.mem_map_of_mem _ ha, rfl⟩
  · norm_num [aggregateByState, groupCities, insertCity, initAcc, updAcc,
      jsDiv, stateKey, coerceNps, coerceCsat, coerceCes, cityLA, citySF,
      updDate, strTruthy]
    intro h
    exact absurd h (by decide)

/-- Witness for C1: the country group "USA" of a concrete one-record list has
positive weight and is returned by `aggregateByCountry`. -/
theorem aggregate_weighted_mean_witness :
    ∃ agg ∈ aggregateByCountry [cityLA], agg.name = "USA" :=
  aggregate_weighted_mean.2.2.1 [cityLA] "USA" (by decide)

/-- C2: evaluating the aggregation engine on a group whose total response
count is `0` (single record with `responseCount = 0`) shows every metric and
coordinate field is the `0 / 0` division, i.e. `NaN` (modelled `none`): the
code divides by the zero weight instead of falling back to an unweighted mean
or marking the aggregate. -/
theorem aggregate_zero_weight_nan :
    aggregateByCountry [cityZero]
      = [{ name := "Nowhere", country := none, state := none, latitude := none,
           longitude := none, nps := none, csat := none, ces := none,
           responseCount := 0, surveyDate := none,
           level := DrillLevel.country }] := by
  decide

/-- C3: the derived render set is determined by drill level and selections:
`country` level yields `aggregateByCountry` of all records; `state` level with
a country selected yields `aggregateByState`; `city` level yields all raw
records when no country is selected, the country-filtered records otherwise,
further filtered by the state-or-country key when a state is selected; `state`
level with no country selected yields the empty result. -/
theorem currentMapData_spec :
    (∀ (data : List SurveyCity) (country state : Option String),
        currentMapData data DrillLevel.country country state
          = MapData.aggregates (aggregateByCountry data)) ∧
    (∀ (data : List SurveyCity) (c : String) (state : Option String), c ≠ "" →
        currentMapData data DrillLevel.state (some c) state
          = MapData.aggregates (aggregateByState data c)) ∧
    (∀ (data : List SurveyCity) (state : Option String),
        currentMapData data DrillLevel.city none state = MapData.cityList data) ∧
    (∀ (data : List SurveyCity) (c : String), c ≠ "" →
        currentMapData data DrillLevel.city (some c) none
          = MapData.cityList (data.filter (fun x => x.country = c))) ∧
    (∀ (data : List SurveyCity) (c s : String), c ≠ "" → s ≠ "" →
        currentMapData data DrillLevel.city (some c) (some s)
          = MapData.cityList
              ((data.filter (fun x => x.country = c)).filter
                (fun x => stateKey x = s))) ∧
    (∀ (data : List SurveyCity) (state : Option String),
        currentMapData data DrillLevel.state none state = MapData.empty) ∧
    (∀ (data : List SurveyCity) (state : Option String),
        currentMapData data DrillLevel.state (some "") state = MapData.empty) := by
  refine ⟨?_, ?_, ?_, ?_, ?_, ?_, ?_⟩
  · intro data country state
    simp [currentMapData]
  · intro data c state h
    simp [currentMapData, strTruthy, h]
  · intro data state
    simp [currentMapData, strTruthy]
  · intro data c h
    simp [currentMapData, strTruthy, h]
  · intro data c s h₁ h₂
    simp [currentMapData, strTruthy, h₁, h₂]
  · intro data state
    simp [currentMapData, strTruthy]
  · intro data state
    simp [currentMapData, strTruthy]

/-- Witness for C3: two branch equations evaluated at concrete view states. -/
theorem currentMapData_spec_witness :
    currentMapData [cityLA] DrillLevel.state (some "USA") none
      = MapData.aggregates (aggregateByState [cityLA] "USA") ∧
    currentMapData [cityLA, cityZero] DrillLevel.city (some "USA") (some "CA")
      = MapData.cityList
          (([cityLA, cityZero].filter (fun x => x.country = "USA")).filter
            (fun x => stateKey x = "CA")) :=
  ⟨currentMapData_spec.2.1 [cityLA] "USA" none (by decide),
   currentMapData_spec.2.2.2.2.1 [cityLA, cityZero] "USA" "CA"
     (by decide) (by decide)⟩

/-- C4 counterexample: from the initial state (no country selected),
`onStateSelect "CA"` changes the drill level from `country` to `city` and the
derived data is the full raw record list, not a no-op and not an empty city
list — refuting the claim that the drill level is left unchanged. -/
theorem selectState_no_country_counterexample :
    initialState.selectedCountry = none ∧
    (onStateSelect "CA" initialState).drillLevel ≠ initialState.drillLevel ∧
    onStateSelect "CA" initialState ≠ initialState ∧
    currentMapDataOf [cityLA] (onStateSelect "CA" initialState)
      = MapData.cityList [cityLA] ∧
    MapData.cityList [cityLA] ≠ MapData.empty ∧
    ([cityLA] : List SurveyCity) ≠ [] := by
  decide

/-- C4 (amended): `onStateSelect` with no country selected never throws — it is
a total state update that sets drill level to `city` and the selected state,
and the derived render set is the full raw record list. -/
theorem selectState_total (s : ViewState) (st : String)
    (h : s.selectedCountry = none) :
    onStateSelect st s
        = { s with drillLevel := DrillLevel.city, selectedState := some st } ∧
    ∀ data : List SurveyCity,
      currentMapDataOf data (onStateSelect st s) = MapData.cityList data := by
  refine ⟨rfl, fun data => ?_⟩
  simp [currentMapDataOf, currentMapData, onStateSelect, h, strTruthy]

/-- Witness for C4's amended theorem at the initial state. -/
theorem selectState_total_witness :
    onStateSelect "CA" initialState
        = { initialState with
            drillLevel := DrillLevel.city
            selectedState := some "CA" } ∧
    currentMapDataOf [] (onStateSelect "CA" initialState) = MapData.cityList [] :=
  ⟨(selectState_total initialState "CA" rfl).1,
   (selectState_total initialState "CA" rfl).2 []⟩

/-- C5: `selectCountry(c)` followed by `goBackFromState()` returns the view
state to drill level `country` with both selections cleared, and from the
initial state the round trip is the identity. -/
theorem drill_roundtrip :
    (∀ (s : ViewState) (c : String),
        (goBackFromState (onCountrySelect c s)).drillLevel = DrillLevel.country ∧
        (goBackFromState (onCountrySelect c s)).selectedCountry = none ∧
        (goBackFromState (onCountrySelect c s)).selectedState = none) ∧
    (∀ c : String, goBackFromState (onCountrySelect c initialState) = initialState) :=
  ⟨fun _s _c => ⟨rfl, rfl, rfl⟩, fun _c => rfl⟩

/-- C6: `getColor` is total and deterministic; per-metric thresholds are
NPS ≥ 50 good / ≥ 0 neutral / else bad, CSAT ≥ 80 good / ≥ 60 neutral / else
bad, CES < 3 good / ≤ 5 neutral / else bad; boundary values NPS = 50 and
CSAT = 60 resolve as documented; each band is a fixed color; unknown metric
keys yield the neutral gray. -/
theorem getColor_classification :
    (∀ v : ℚ, 50 ≤ v → getColor "nps" (some v) = colorGood) ∧
    (∀ v : ℚ, 0 ≤ v → v < 50 → getColor "nps" (some v) = colorNeutral) ∧
    (∀ v : ℚ, v < 0 → getColor "nps" (some v) = colorBad) ∧
    (∀ v : ℚ, 80 ≤ v → getColor "csat" (some v) = colorGood) ∧
    (∀ v : ℚ, 60 ≤ v → v < 80 → getColor "csat" (some v) = colorNeutral) ∧
    (∀ v : ℚ, v < 60 → getColor "csat" (some v) = colorBad) ∧
    (∀ v : ℚ, v < 3 → getColor "ces" (some v) = colorGood) ∧
    (∀ v : ℚ, 3 ≤ v → v ≤ 5 → getColor "ces" (some v) = colorNeutral) ∧
    (∀ v : ℚ, 5 < v → getColor "ces" (some v) = colorBad) ∧
    getColor "nps" (some 50) = colorGood ∧
    getColor "csat" (some 60) = colorNeutral ∧
    (∀ (m : String) (v : Option ℚ),
        m ≠ "nps" → m ≠ "csat" → m ≠ "ces" → getColor m v = colorUnknown) := by
  refine ⟨?_, ?_, ?_, ?_, ?_, ?_, ?_, ?_, ?_, ?_, ?_, ?_⟩
  · intro v h
    simp [getColor, safeMetricValue, h]
  · intro v h₁ h₂
    simp [getColor, safeMetricValue, h₁, not_le.mpr h₂]
  · intro v h
    simp [getColor, safeMetricValue, not_le.mpr h,
      not_le.mpr (lt_trans h (by norm_num : (0:ℚ) < 50))]
  · intro v h
    simp [getColor, safeMetricValue, h]
  · intro v h₁ h₂
    simp [getColor, safeMetricValue, h₁, not_le.mpr h₂]
  · intro v h
    simp [getColor, safeMetricValue, not_le.mpr h,
      not_le.mpr (lt_trans h (by norm_num : (60:ℚ) < 80))]
  · intro v h
    simp [getColor, safeMetricValue, h]
  · intro v h₁ h₂
    simp [getColor, safeMetricValue, not_lt.mpr h₁, h₂]
  · intro v h
    simp [getColor, safeMetricValue,
      not_lt.mpr (le_of_lt (lt_trans (by norm_num : (3:ℚ) < 5) h)), not_le.mpr h]
  · decide
  · decide
  · intro m v h₁ h₂ h₃
    simp [getColor, h₁, h₂, h₃]

/-- Witness for C6: a band membership and the unknown-metric fallback at
concrete inputs. -/
theorem getColor_classification_witness :
    getColor "nps" (some 60) = colorGood ∧
    getColor "other" (some 1) = colorUnknown :=
  ⟨getColor_classification.1 60 (by norm_num),
   getColor_classification.2.2.2.2.2.2.2.2.2.2.2 "other" (some 1)
     (by decide) (by decide) (by decide)⟩

/-- C7: `formatMetricValue` returns the placeholder "—" whenever the value is
missing or `NaN`; for `ces` it renders one-decimal fixed point, for `nps` and
`csat` the value rounded to the nearest integer; the spec's three concrete
examples evaluate as stated. -/
theorem formatMetric_spec :
    (∀ m : String, formatMetricValue none m = "—") ∧
    (∀ v : ℚ, formatMetricValue (some v) "ces" = toFixed1 v) ∧
    (∀ v : ℚ, formatMetricValue (some v) "nps" = toString (jsRound v)) ∧
    (∀ v : ℚ, formatMetricValue (some v) "csat" = toString (jsRound v)) ∧
    formatMetricValue none "ces" = "—" ∧
    formatMetricValue (some (314159 / 100000)) "ces" = "3.1" ∧
    formatMetricValue (some (726 / 10)) "nps" = "73" := by
  refine ⟨fun m => rfl, fun v => by simp [formatMetricValue],
    fun v => by simp [formatMetricValue], fun v => by simp [formatMetricValue],
    rfl, ?_, ?_⟩
  · have h : ⌊(314159 / 100000 : ℚ) * 10 + 1 / 2⌋ = 31 := by norm_num
    simp only [formatMetricValue, if_pos rfl, toFixed1]
    rw [h]
    decide
  · have h : jsRound (726 / 10 : ℚ) = 73 := by norm_num [jsRound]
    simp only [formatMetricValue]
    rw [if_neg (by decide), h]
    decide

/-- C9: `geoNameForCountry` returns the fixed-table translation for table keys
and the input itself otherwise; in particular "USA" maps to "United States of
America" and "Freedonia" passes through unchanged. -/
theorem geoName_spec :
    (∀ s v : String,
        lookupStr s COUNTRY_NAME_TO_GEO = some v → geoNameForCountry s = v) ∧
    (∀ s : String,
        lookupStr s COUNTRY_NAME_TO_GEO = none → geoNameForCountry s = s) ∧
    geoNameForCountry "USA" = "United States of America" ∧
    geoNameForCountry "Freedonia" = "Freedonia" :=
  ⟨fun s v h => by simp [geoNameForCountry, h],
   fun s h => by simp [geoNameForCountry, h],
   by decide, by decide⟩

/-- Witness for C9: the table entry for "UK" resolves through the lookup. -/
theorem geoName_spec_witness : geoNameForCountry "UK" = "United Kingdom" :=
  geoName_spec.1 "UK" "United Kingdom" (by decide)

/-- C10: `getColor` coerces a `NaN` value to 0 before classifying, so a `NaN`
metric classifies exactly like 0: neutral for NPS, bad for CSAT, good for
CES — never a distinct or undefined color. -/
theorem getColor_nan_coercion :
    (∀ m : String, getColor m none = getColor m (some 0)) ∧
    getColor "nps" none = colorNeutral ∧
    getColor "csat" none = colorBad ∧
    getColor "ces" none = colorGood :=
  ⟨fun _m => rfl, by decide, by decide, by decide⟩

/-- C8: aggregation is weight-preserving — every aggregate's response count is
the sum of the response counts of exactly its group's constituent records. -/
theorem aggregate_weight_preserving :
    (∀ (cities : List SurveyCity) (agg : SurveyAggregate),
        agg ∈ aggregateByCountry cities →
        agg.responseCount = totalWeight (groupOfCountry cities agg.name)) ∧
    (∀ (cities : List SurveyCity) (country : String) (agg : SurveyAggregate),
        agg ∈ aggregateByState cities country →
        agg.responseCount = totalWeight (groupOfState cities country agg.name)) := by
  constructor
  · intro cities agg hmem
    rw [aggregateByCountry] at hmem
    obtain ⟨⟨k, a⟩, hp, rfl⟩ := List.mem_map.mp hmem
    have hchar := groupCities_char (fun c => c.country) cities k a hp
    simpa [groupOfCountry] using hchar.1
  · intro cities country agg hmem
    rw [aggregateByState] at hmem
    obtain ⟨⟨k, a⟩, hp, rfl⟩ := List.mem_map.mp hmem
    have hchar := groupCities_char stateKey
      (cities.filter (fun c => c.country = country)) k a hp
    simpa [groupOfState] using hchar.1

/-- Witness for C8: the weight of a concrete aggregate equals its group's
total response count. -/
theorem aggregate_weight_preserving_witness :
    ({ name := "Nowhere", country := none, state := none, latitude := none,
       longitude := none, nps := none, csat := none, ces := none,
       responseCount := 0, surveyDate := none,
       level := DrillLevel.country } : SurveyAggregate).responseCount
      = totalWeight (groupOfCountry [cityZero] "Nowhere") :=
  aggregate_weight_preserving.1 [cityZero] _ (by decide)
